import Mathlib

/-!
Verification of the batch CSR generator core (src/src-tauri/src/csr_generator.rs).

Shallow embedding: the pure logic of the Rust module is translated to Lean
definitions.  File and cryptographic side effects are abstracted:
the CSV writer returns the header and rows it would write, the OpenSSL
key/CSR generation is an oracle parameter, and the batch orchestrator
additionally returns a trace of the observable side-effecting events
(range parsing, key-generation invocations, CSV writing) in the order the
source performs them.
-/

namespace BatchCsr

instance {ε α : Type} [DecidableEq ε] [DecidableEq α] : DecidableEq (Except ε α) :=
  fun x y =>
  match x, y with
  | Except.ok a, Except.ok b =>
    if h : a = b then isTrue (by rw [h]) else
      isFalse (by intro hc; injection hc; contradiction)
  | Except.error a, Except.error b =>
    if h : a = b then isTrue (by rw [h]) else
      isFalse (by intro hc; injection hc; contradiction)
  | Except.ok _, Except.error _ => isFalse (by intro hc; exact Except.noConfusion hc)
  | Except.error _, Except.ok _ => isFalse (by intro hc; exact Except.noConfusion hc)

/-- Character class of the first/third regex group: ASCII letters, codepoints
65-90 and 97-122. -/
def isLetterAZ (c : Char) : Bool :=
  (65 ≤ c.toNat && c.toNat ≤ 90) || (97 ≤ c.toNat && c.toNat ≤ 122)

/-- Character class of the second/fourth regex group: decimal digits,
codepoints 48-57.  (The Rust regex class also admits non-ASCII Unicode
digits, but on those the subsequent u32 parse fails, so the whole parse
fails either way; the embedding folds both failures into one.) -/
def isDigit09 (c : Char) : Bool :=
  48 ≤ c.toNat && c.toNat ≤ 57

/-- Decimal value of a digit run (the accumulator of a base-10 parse). -/
def digitsToNat (l : List Char) : Nat :=
  l.foldl (fun a c => a * 10 + (c.toNat - 48)) 0

/-- Largest value of the Rust type u32. -/
def U32_MAX : Nat := 4294967295

/-- Embedding of num_str.parse::<u32>() as used on a captured digit run:
fails on the empty string and on values exceeding u32::MAX. -/
def parseU32 (l : List Char) : Except String Nat :=
  if l.isEmpty then Except.error "cannot parse integer from empty string"
  else if digitsToNat l ≤ U32_MAX then Except.ok (digitsToNat l)
  else Except.error "number too large to fit in target type"

/-- Anchored match of the regex pattern: letters group, digits group,
literal hyphen, letters group, digits group, end of string.  Because the
letter class, the digit class and the hyphen are pairwise disjoint, the
greedy maximal-run decomposition below is exactly the regex semantics. -/
def matchRange (l : List Char) :
    Option (List Char × List Char × List Char × List Char) :=
  let p1 := l.takeWhile isLetterAZ
  let r1 := l.dropWhile isLetterAZ
  if p1.isEmpty then none else
  let n1 := r1.takeWhile isDigit09
  let r2 := r1.dropWhile isDigit09
  if n1.isEmpty then none else
  match r2 with
  | '-' :: r3 =>
    let p2 := r3.takeWhile isLetterAZ
    let r4 := r3.dropWhile isLetterAZ
    if p2.isEmpty then none else
    let n2 := r4.takeWhile isDigit09
    let r5 := r4.dropWhile isDigit09
    if n2.isEmpty then none else
    if r5.isEmpty then some (p1, n1, p2, n2) else none
  | _ => none

/-- Rust format with a zero-pad width: the decimal representation of n,
left-padded with zeros up to the width; wider numbers are printed in
full, never truncated. -/
def zeroPad (width : Nat) (n : Nat) : String :=
  String.mk (List.replicate (width - (toString n).length) '0') ++ toString n

/-- Error message of the malformed-range branch of parse_cn_range. -/
def rangeErrMsg : String := "无法解析通用名称范围，正确格式示例: YDL0001-YDL0010"

/-- Embedding of parse_cn_range: match the range expression against the
two-group pattern, parse both numbers as u32, swap so the loop ascends,
and emit prefix1 followed by each number zero-padded to the first numeric
group's literal length. -/
def parse_cn_range (range : String) : Except String (List String) :=
  match matchRange range.toList with
  | none => Except.error rangeErrMsg
  | some (p1, n1, _p2, n2) =>
    match parseU32 n1 with
    | Except.error e => Except.error e
    | Except.ok a =>
      match parseU32 n2 with
      | Except.error e => Except.error e
      | Except.ok b =>
        let width := n1.length
        let lo := if a > b then b else a
        let hi := if a > b then a else b
        Except.ok ((List.range' lo (hi + 1 - lo)).map
          (fun i => String.mk p1 ++ zeroPad width i))

/-- The six supported key types. -/
inductive KeyType
  | Rsa2048
  | Rsa3072
  | Rsa4096
  | EcP256
  | EcP384
  | EcP521
deriving DecidableEq

/-- Embedding of KeyType::from_str: case-sensitive exact match of the six
tokens, any other token is the unsupported-key-type error. -/
def KeyType.from_str (s : String) : Except String KeyType :=
  match s with
  | "RSA_2048" => Except.ok KeyType.Rsa2048
  | "RSA_3072" => Except.ok KeyType.Rsa3072
  | "RSA_4096" => Except.ok KeyType.Rsa4096
  | "EC_P256" => Except.ok KeyType.EcP256
  | "EC_P384" => Except.ok KeyType.EcP384
  | "EC_P521" => Except.ok KeyType.EcP521
  | _ => Except.error ("不支持的密钥类型: " ++ s)

/-- Embedding of KeyType::display_name. -/
def KeyType.display_name : KeyType → String
  | KeyType.Rsa2048 => "RSA_2048"
  | KeyType.Rsa3072 => "RSA_3072"
  | KeyType.Rsa4096 => "RSA_4096"
  | KeyType.EcP256 => "EC_P-256"
  | KeyType.EcP384 => "EC_P-384"
  | KeyType.EcP521 => "EC_P-521"

/-- The four signature digests generate_csr can select. -/
inductive MessageDigest
  | sha1
  | sha256
  | sha384
  | sha512
deriving DecidableEq

/-- Embedding of the digest selection at the top of generate_csr: SHA384,
SHA512 and SHA1 map to their digests, every other token (including
MatchIssuer and SHA256 itself) falls through to SHA-256. -/
def resolveDigest (sign_hash_alg : String) : MessageDigest :=
  match sign_hash_alg with
  | "SHA384" => MessageDigest.sha384
  | "SHA512" => MessageDigest.sha512
  | "SHA1" => MessageDigest.sha1
  | _ => MessageDigest.sha256

/-- Embedding of the CsrResult record assembled per identity. -/
structure CsrResult where
  cn : String
  subject : String
  sign_hash_alg : String
  not_before : String
  not_after : String
  unique_id : String
  sans : String
  csr_pem : String
  key_pair_type : String
  private_key_pem : String
deriving DecidableEq

/-- Embedding of the GenerateParams input record. -/
structure GenerateParams where
  cn_range : String
  subject_template : String
  key_type : String
  sign_hash_alg : String
  not_before : String
  not_after : String
  unique_id : String
  sans : String
  output_path : String
deriving DecidableEq

/-- Embedding of the GenerateResult output record. -/
structure GenerateResult where
  success : Bool
  message : String
  total : Nat
  output_path : String
deriving DecidableEq

/-- Replace every occurrence of the placeholder, left to right and
non-overlapping: the list-level engine of Rust's str::replace as called
with pattern "\x7bCN\x7d". -/
def substCN (cn : List Char) : List Char → List Char
  | '{' :: 'C' :: 'N' :: '}' :: rest => cn ++ substCN cn rest
  | c :: rest => c :: substCN cn rest
  | [] => []

/-- Embedding of subject_template.replace of the CN placeholder by cn. -/
def replaceCN (template cn : String) : String :=
  String.mk (substCN cn.toList template.toList)

/-- Embedding of write_to_csv with file I/O abstracted away: returns the
header record and the data records that the csv writer receives, in
order.  Mirrors the source: scan for any non-empty unique_id / sans,
push the four fixed headers, conditionally uniqueId then sans, then the
three trailing headers; each data record is built the same way from the
identity's own fields. -/
def write_to_csv (results : List CsrResult) : List String × List (List String) :=
  let has_unique_id := results.any (fun r => !r.unique_id.isEmpty)
  let has_sans := results.any (fun r => !r.sans.isEmpty)
  let headers := ["subject", "signHashAlg", "notBefore", "notAfter"]
  let headers := headers ++ (if has_unique_id then ["uniqueId"] else [])
  let headers := headers ++ (if has_sans then ["sans"] else [])
  let headers := headers ++ ["csr", "keyPairType", "privateKey"]
  let rows := results.map (fun r =>
    let record := [r.subject, r.sign_hash_alg, r.not_before, r.not_after]
    let record := record ++ (if has_unique_id then [r.unique_id] else [])
    let record := record ++ (if has_sans then [r.sans] else [])
    record ++ [r.csr_pem, r.key_pair_type, r.private_key_pem])
  (headers, rows)

/-- Observable side-effecting events of the batch, in program order:
the range-parse attempt, each generate_csr invocation (with the key type
and the hash token it receives), and the CSV write. -/
inductive Event
  | parseRange
  | genKey (cn : String) (kt : KeyType) (hash : String)
  | writeCsv (header : List String) (rows : List (List String))
deriving DecidableEq

/-- The MatchIssuer rewrite at the top of the batch loop: the literal
token MatchIssuer becomes SHA256, every other token is kept. -/
def normalizedHash (params : GenerateParams) : String :=
  if params.sign_hash_alg == "MatchIssuer" then "SHA256" else params.sign_hash_alg

/-- The per-name loop of generate_csr_batch_internal, with generate_csr
abstracted as the oracle gen: for each name substitute the placeholder in
the subject template, call the oracle, and assemble the CsrResult record
(note the record's sign_hash_alg field stores params.sign_hash_alg, the
request's literal token, exactly as the source does).  The second
component lists the names for which the oracle was invoked, in order. -/
def genLoop (gen : String → KeyType → String → Except String (String × String))
    (params : GenerateParams) (kt : KeyType) (hashAlg : String) :
    List String → Except String (List CsrResult) × List String
  | [] => (Except.ok [], [])
  | cn :: rest =>
    match gen cn kt hashAlg with
    | Except.error e => (Except.error e, [cn])
    | Except.ok (csr_pem, private_key_pem) =>
      let r : CsrResult :=
        { cn := cn
          subject := replaceCN params.subject_template cn
          sign_hash_alg := params.sign_hash_alg
          not_before := params.not_before
          not_after := params.not_after
          unique_id := params.unique_id
          sans := params.sans
          csr_pem := csr_pem
          key_pair_type := kt.display_name
          private_key_pem := private_key_pem }
      match genLoop gen params kt hashAlg rest with
      | (Except.ok rs, calls) => (Except.ok (r :: rs), cn :: calls)
      | (Except.error e, calls) => (Except.error e, cn :: calls)

/-- Embedding of generate_csr_batch_internal, instrumented with the event
trace: resolve the key type, parse the range, reject an empty expansion,
normalize the hash token, run the per-name loop, write the CSV, and
return the summary record. -/
def generate_csr_batch_internal
    (gen : String → KeyType → String → Except String (String × String))
    (params : GenerateParams) : Except String GenerateResult × List Event :=
  match KeyType.from_str params.key_type with
  | Except.error e => (Except.error e, [])
  | Except.ok key_type =>
    match parse_cn_range params.cn_range with
    | Except.error e => (Except.error e, [Event.parseRange])
    | Except.ok cn_list =>
      if cn_list.isEmpty then
        (Except.error "无法解析通用名称范围", [Event.parseRange])
      else
        let sign_hash_alg := normalizedHash params
        match genLoop gen params key_type sign_hash_alg cn_list with
        | (Except.error e, calls) =>
          (Except.error e,
            Event.parseRange ::
              calls.map (fun cn => Event.genKey cn key_type sign_hash_alg))
        | (Except.ok results, calls) =>
          let out := write_to_csv results
          (Except.ok
            { success := true
              message := "成功生成 " ++ toString results.length ++ " 个CSR"
              total := results.length
              output_path := params.output_path },
            Event.parseRange ::
              calls.map (fun cn => Event.genKey cn key_type sign_hash_alg)
              ++ [Event.writeCsv out.1 out.2])

/-- generate_csr_batch_internal with the empty-expansion guard removed,
used to state that the guard is dead code. -/
def generate_csr_batch_noCheck
    (gen : String → KeyType → String → Except String (String × String))
    (params : GenerateParams) : Except String GenerateResult × List Event :=
  match KeyType.from_str params.key_type with
  | Except.error e => (Except.error e, [])
  | Except.ok key_type =>
    match parse_cn_range params.cn_range with
    | Except.error e => (Except.error e, [Event.parseRange])
    | Except.ok cn_list =>
      let sign_hash_alg := normalizedHash params
      match genLoop gen params key_type sign_hash_alg cn_list with
      | (Except.error e, calls) =>
        (Except.error e,
          Event.parseRange ::
            calls.map (fun cn => Event.genKey cn key_type sign_hash_alg))
      | (Except.ok results, calls) =>
        let out := write_to_csv results
        (Except.ok
          { success := true
            message := "成功生成 " ++ toString results.length ++ " 个CSR"
            total := results.length
            output_path := params.output_path },
          Event.parseRange ::
            calls.map (fun cn => Event.genKey cn key_type sign_hash_alg)
            ++ [Event.writeCsv out.1 out.2])

/-- A trivial total oracle, used for concrete sanity checks. -/
def demoGen : String → KeyType → String → Except String (String × String) :=
  fun cn _ _ => Except.ok ("CSR-" ++ cn, "KEY-" ++ cn)

/-- A concrete request with the MatchIssuer hash token. -/
def c1Params : GenerateParams :=
  { cn_range := "YDL0001-YDL0001"
    subject_template := "CN={CN}"
    key_type := "RSA_2048"
    sign_hash_alg := "MatchIssuer"
    not_before := "2025-01-01T00:00:00Z"
    not_after := "2026-01-01T00:00:00Z"
    unique_id := ""
    sans := ""
    output_path := "out.csv" }

/-! Helper lemmas. -/

/-- Whether the placeholder occurs in a character list. -/
def hasCN : List Char → Bool
  | '{' :: 'C' :: 'N' :: '}' :: _ => true
  | _ :: rest => hasCN rest
  | [] => false

theorem hasCN_cons_false {c : Char} {rest : List Char}
    (h : hasCN (c :: rest) = false) : hasCN rest = false := by
  rw [hasCN.eq_def] at h
  split at h
  · simp at h
  · rename_i c2 rest2 hne2 heq2
    simp only [List.cons.injEq] at heq2
    rw [heq2.2]
    exact h
  · rename_i heq
    simp at heq

/-- A template free of the placeholder passes through substitution
unchanged. -/
theorem substCN_of_hasCN_false (cn : List Char) (l : List Char)
    (h : hasCN l = false) : substCN cn l = l := by
  induction l with
  | nil => rfl
  | cons c rest ih =>
    rw [substCN.eq_def]
    split
    · rename_i rest1 heq
      simp only [List.cons.injEq] at heq
      rw [heq.1, heq.2] at h
      simp [hasCN] at h
    · rename_i c2 rest2 hne2 heq2
      simp only [List.cons.injEq] at heq2
      rw [← heq2.1, ← heq2.2]
      rw [ih (hasCN_cons_false h)]
    · rename_i heq
      simp at heq

theorem takeWhile_append_all {p : Char → Bool} {a : List Char} (b : List Char)
    (h : ∀ c ∈ a, p c = true) : (a ++ b).takeWhile p = a ++ b.takeWhile p := by
  induction a with
  | nil => simp
  | cons x xs ih =>
    simp only [List.cons_append, List.takeWhile_cons, h x (List.mem_cons_self x xs)]
    rw [ih (fun c hc => h c (List.mem_cons_of_mem _ hc))]
    simp

theorem dropWhile_append_all {p : Char → Bool} {a : List Char} (b : List Char)
    (h : ∀ c ∈ a, p c = true) : (a ++ b).dropWhile p = b.dropWhile p := by
  induction a with
  | nil => simp
  | cons x xs ih =>
    simp only [List.cons_append, List.dropWhile_cons, h x (List.mem_cons_self x xs)]
    simpa using ih (fun c hc => h c (List.mem_cons_of_mem _ hc))

theorem takeWhile_all {p : Char → Bool} {a : List Char}
    (h : ∀ c ∈ a, p c = true) : a.takeWhile p = a := by
  have := takeWhile_append_all (p := p) [] h
  simpa using this

theorem dropWhile_all {p : Char → Bool} {a : List Char}
    (h : ∀ c ∈ a, p c = true) : a.dropWhile p = [] := by
  have := dropWhile_append_all (p := p) [] h
  simpa using this

theorem digit_not_letter {c : Char} (h : isDigit09 c = true) :
    isLetterAZ c = false := by
  simp only [isDigit09, Bool.and_eq_true, decide_eq_true_eq] at h
  simp only [isLetterAZ, Bool.or_eq_false_iff, Bool.and_eq_false_iff,
    decide_eq_false_iff_not, not_le]
  omega

/-- On a string of the shape letters-digits-hyphen-letters-digits, the
anchored pattern match captures exactly the four runs. -/
theorem matchRange_append (p1 d1 p2 d2 : List Char)
    (hp1 : p1 ≠ []) (hp1l : ∀ c ∈ p1, isLetterAZ c = true)
    (hd1 : d1 ≠ []) (hd1d : ∀ c ∈ d1, isDigit09 c = true)
    (hp2 : p2 ≠ []) (hp2l : ∀ c ∈ p2, isLetterAZ c = true)
    (hd2 : d2 ≠ []) (hd2d : ∀ c ∈ d2, isDigit09 c = true) :
    matchRange (p1 ++ (d1 ++ ('-' :: (p2 ++ d2)))) = some (p1, d1, p2, d2) := by
  obtain ⟨c1, d1t, rfl⟩ := List.exists_cons_of_ne_nil hd1
  obtain ⟨c2, d2t, rfl⟩ := List.exists_cons_of_ne_nil hd2
  have hc1 : isLetterAZ c1 = false :=
    digit_not_letter (hd1d c1 (List.mem_cons_self _ _))
  have hc2 : isLetterAZ c2 = false :=
    digit_not_letter (hd2d c2 (List.mem_cons_self _ _))
  have hyl : isLetterAZ '-' = false := by decide
  have hyd : isDigit09 '-' = false := by decide
  have h1 : (p1 ++ ((c1 :: d1t) ++ ('-' :: (p2 ++ (c2 :: d2t))))).takeWhile
      isLetterAZ = p1 := by
    rw [takeWhile_append_all _ hp1l]
    simp [List.takeWhile_cons, hc1]
  have h2 : (p1 ++ ((c1 :: d1t) ++ ('-' :: (p2 ++ (c2 :: d2t))))).dropWhile
      isLetterAZ = (c1 :: d1t) ++ ('-' :: (p2 ++ (c2 :: d2t))) := by
    rw [dropWhile_append_all _ hp1l]
    simp [List.dropWhile_cons, hc1]
  have h3 : ((c1 :: d1t) ++ ('-' :: (p2 ++ (c2 :: d2t)))).takeWhile isDigit09
      = c1 :: d1t := by
    rw [takeWhile_append_all _ hd1d]
    simp [List.takeWhile_cons, hyd]
  have h4 : ((c1 :: d1t) ++ ('-' :: (p2 ++ (c2 :: d2t)))).dropWhile isDigit09
      = '-' :: (p2 ++ (c2 :: d2t)) := by
    rw [dropWhile_append_all _ hd1d]
    simp [List.dropWhile_cons, hyd]
  have h5 : (p2 ++ (c2 :: d2t)).takeWhile isLetterAZ = p2 := by
    rw [takeWhile_append_all _ hp2l]
    simp [List.takeWhile_cons, hc2]
  have h6 : (p2 ++ (c2 :: d2t)).dropWhile isLetterAZ = c2 :: d2t := by
    rw [dropWhile_append_all _ hp2l]
    simp [List.dropWhile_cons, hc2]
  have h7 : (c2 :: d2t).takeWhile isDigit09 = c2 :: d2t := takeWhile_all hd2d
  have h8 : (c2 :: d2t).dropWhile isDigit09 = [] := dropWhile_all hd2d
  simp only [matchRange, h1, h2, h3, h4, h5, h6, h7, h8]
  simp [List.isEmpty_eq_false, hp1, hp2]

/-- Closed form of parse_cn_range on a well-formed range expression:
ascending range between the two numeric values, width taken from the
first numeric group. -/
theorem parse_cn_range_append (p1 d1 p2 d2 : List Char)
    (hp1 : p1 ≠ []) (hp1l : ∀ c ∈ p1, isLetterAZ c = true)
    (hd1 : d1 ≠ []) (hd1d : ∀ c ∈ d1, isDigit09 c = true)
    (hp2 : p2 ≠ []) (hp2l : ∀ c ∈ p2, isLetterAZ c = true)
    (hd2 : d2 ≠ []) (hd2d : ∀ c ∈ d2, isDigit09 c = true)
    (ha : digitsToNat d1 ≤ U32_MAX) (hb : digitsToNat d2 ≤ U32_MAX) :
    parse_cn_range (String.mk (p1 ++ (d1 ++ ('-' :: (p2 ++ d2))))) =
      Except.ok ((List.range' (min (digitsToNat d1) (digitsToNat d2))
          (max (digitsToNat d1) (digitsToNat d2) + 1
            - min (digitsToNat d1) (digitsToNat d2))).map
        (fun i => String.mk p1 ++ zeroPad d1.length i)) := by
  have hm := matchRange_append p1 d1 p2 d2 hp1 hp1l hd1 hd1d hp2 hp2l hd2 hd2d
  have htl : (String.mk (p1 ++ (d1 ++ ('-' :: (p2 ++ d2))))).toList
      = p1 ++ (d1 ++ ('-' :: (p2 ++ d2))) := rfl
  have hu1 : parseU32 d1 = Except.ok (digitsToNat d1) := by
    simp [parseU32, List.isEmpty_eq_false.mpr hd1, ha]
  have hu2 : parseU32 d2 = Except.ok (digitsToNat d2) := by
    simp [parseU32, List.isEmpty_eq_false.mpr hd2, hb]
  simp only [parse_cn_range, htl, hm, hu1, hu2]
  by_cases hab : digitsToNat d1 > digitsToNat d2
  · have hmin : min (digitsToNat d1) (digitsToNat d2) = digitsToNat d2 :=
      Nat.min_eq_right (Nat.le_of_lt hab)
    have hmax : max (digitsToNat d1) (digitsToNat d2) = digitsToNat d1 :=
      Nat.max_eq_left (Nat.le_of_lt hab)
    simp only [if_pos hab, hmin, hmax]
  · have hmin : min (digitsToNat d1) (digitsToNat d2) = digitsToNat d1 :=
      Nat.min_eq_left (Nat.le_of_not_lt hab)
    have hmax : max (digitsToNat d1) (digitsToNat d2) = digitsToNat d2 :=
      Nat.max_eq_right (Nat.le_of_not_lt hab)
    simp only [if_neg hab, hmin, hmax]

/-- A successful range parse never returns an empty name list: the
inclusive ascending loop emits at least its lower endpoint. -/
theorem parse_cn_range_ok_ne_nil (r : String) (cns : List String)
    (h : parse_cn_range r = Except.ok cns) : cns ≠ [] := by
  unfold parse_cn_range at h
  split at h
  · exact absurd h (by simp)
  · split at h
    · exact absurd h (by simp)
    · rename_i a ha
      split at h
      · exact absurd h (by simp)
      · rename_i b hb
        simp only [Except.ok.injEq] at h
        rw [← h]
        apply List.ne_nil_of_length_pos
        simp only [List.length_map, List.length_range']
        by_cases hab : a > b
        · simp only [if_pos hab]; omega
        · simp only [if_neg hab]; omega

/-! Claim theorems. -/

/-- C2: a range expression of the shape prefix-digits-hyphen-prefix-digits
(with both numbers within u32) expands to exactly
max minus min plus one names; the i-th name is the FIRST prefix followed
by the number min+i zero-padded by numeric formatting to the FIRST
numeric group's literal digit count.  The second prefix and the second
number's width do not appear in the result, and start = end gives a
one-element list. -/
theorem c2_range_expansion (p1 d1 p2 d2 : List Char)
    (hp1 : p1 ≠ []) (hp1l : ∀ c ∈ p1, isLetterAZ c = true)
    (hd1 : d1 ≠ []) (hd1d : ∀ c ∈ d1, isDigit09 c = true)
    (hp2 : p2 ≠ []) (hp2l : ∀ c ∈ p2, isLetterAZ c = true)
    (hd2 : d2 ≠ []) (hd2d : ∀ c ∈ d2, isDigit09 c = true)
    (ha : digitsToNat d1 ≤ U32_MAX) (hb : digitsToNat d2 ≤ U32_MAX) :
    ∃ L, parse_cn_range (String.mk (p1 ++ (d1 ++ ('-' :: (p2 ++ d2)))))
        = Except.ok L
      ∧ L.length = (max (digitsToNat d1) (digitsToNat d2)
          - min (digitsToNat d1) (digitsToNat d2)) + 1
      ∧ (∀ i (hi : i < L.length),
          L.get ⟨i, hi⟩ = String.mk p1
            ++ zeroPad d1.length
              (min (digitsToNat d1) (digitsToNat d2) + i)) := by
  refine ⟨_, parse_cn_range_append p1 d1 p2 d2 hp1 hp1l hd1 hd1d hp2 hp2l
    hd2 hd2d ha hb, ?_, ?_⟩
  · simp only [List.length_map, List.length_range']
    have hmm : min (digitsToNat d1) (digitsToNat d2)
        ≤ max (digitsToNat d1) (digitsToNat d2) := min_le_max
    omega
  · intro i hi
    simp only [List.get_eq_getElem, List.getElem_map, List.getElem_range']
    simp

/-- Witness for C2 at the concrete expression YDL001-YDL003. -/
theorem c2_range_expansion_witness :
    ∃ L, parse_cn_range (String.mk (['Y', 'D', 'L'] ++ (['0', '0', '1']
          ++ ('-' :: (['Y', 'D', 'L'] ++ ['0', '0', '3'])))))
        = Except.ok L
      ∧ L.length = (max (digitsToNat ['0', '0', '1']) (digitsToNat ['0', '0', '3'])
          - min (digitsToNat ['0', '0', '1']) (digitsToNat ['0', '0', '3'])) + 1
      ∧ (∀ i (hi : i < L.length),
          L.get ⟨i, hi⟩ = String.mk ['Y', 'D', 'L']
            ++ zeroPad (['0', '0', '1'] : List Char).length
              (min (digitsToNat ['0', '0', '1']) (digitsToNat ['0', '0', '3']) + i)) :=
  c2_range_expansion ['Y', 'D', 'L'] ['0', '0', '1'] ['Y', 'D', 'L'] ['0', '0', '3']
    (by decide) (by decide) (by decide) (by decide) (by decide) (by decide)
    (by decide) (by decide) (by decide) (by decide)

/-- C4 fails as stated: with numeric groups of different literal widths
both orderings parse, yet the expansions differ, because the zero-pad
width follows the first group.  Concretely P001-P10 expands with width 3
and P10-P001 with width 2. -/
theorem c4_counterexample :
    (∃ L, parse_cn_range "P001-P10" = Except.ok L)
    ∧ (∃ L, parse_cn_range "P10-P001" = Except.ok L)
    ∧ parse_cn_range "P10-P001" ≠ parse_cn_range "P001-P10" := by
  refine ⟨⟨["P001", "P002", "P003", "P004", "P005", "P006", "P007", "P008",
    "P009", "P010"], by decide⟩,
    ⟨["P01", "P02", "P03", "P04", "P05", "P06", "P07", "P08", "P09", "P10"],
      by decide⟩, by decide⟩

/-- C4 amended: when the two numeric groups additionally have the same
literal digit count, expanding with reversed endpoints returns exactly
the same ascending sequence. -/
theorem c4_reversed_endpoints (p d1 d2 : List Char)
    (hp : p ≠ []) (hpl : ∀ c ∈ p, isLetterAZ c = true)
    (hd1 : d1 ≠ []) (hd1d : ∀ c ∈ d1, isDigit09 c = true)
    (hd2 : d2 ≠ []) (hd2d : ∀ c ∈ d2, isDigit09 c = true)
    (ha : digitsToNat d1 ≤ U32_MAX) (hb : digitsToNat d2 ≤ U32_MAX)
    (hw : d1.length = d2.length) :
    parse_cn_range (String.mk (p ++ (d2 ++ ('-' :: (p ++ d1))))) =
      parse_cn_range (String.mk (p ++ (d1 ++ ('-' :: (p ++ d2))))) := by
  rw [parse_cn_range_append p d2 p d1 hp hpl hd2 hd2d hp hpl hd1 hd1d hb ha,
    parse_cn_range_append p d1 p d2 hp hpl hd1 hd1d hp hpl hd2 hd2d ha hb,
    Nat.min_comm (digitsToNat d2) (digitsToNat d1),
    Nat.max_comm (digitsToNat d2) (digitsToNat d1), hw]

/-- Witness for the amended C4 at P003-P001 against P001-P003. -/
theorem c4_reversed_endpoints_witness :
    parse_cn_range (String.mk (['P'] ++ (['0', '0', '3']
        ++ ('-' :: (['P'] ++ ['0', '0', '1']))))) =
      parse_cn_range (String.mk (['P'] ++ (['0', '0', '1']
        ++ ('-' :: (['P'] ++ ['0', '0', '3']))))) :=
  c4_reversed_endpoints ['P'] ['0', '0', '1'] ['0', '0', '3']
    (by decide) (by decide) (by decide) (by decide) (by decide) (by decide)
    (by decide) (by decide) rfl

/-- C10: a successful range parse always returns a non-empty list, so the
orchestrator's explicit empty-expansion guard can never fire: the batch
behaves identically to a variant with the guard removed. -/
theorem c10_empty_guard_unreachable :
    (∀ r cns, parse_cn_range r = Except.ok cns → cns ≠ [])
    ∧ (∀ gen params, generate_csr_batch_internal gen params =
        generate_csr_batch_noCheck gen params) := by
  refine ⟨fun r cns h => parse_cn_range_ok_ne_nil r cns h, fun gen params => ?_⟩
  unfold generate_csr_batch_internal generate_csr_batch_noCheck
  cases hk : KeyType.from_str params.key_type with
  | error e => rfl
  | ok kt =>
    cases hp : parse_cn_range params.cn_range with
    | error e => rfl
    | ok cns =>
      have hne := parse_cn_range_ok_ne_nil _ _ hp
      have hie : cns.isEmpty = false := List.isEmpty_eq_false.mpr hne
      simp [hie]

/-- Witness for C10 on a concrete parse and a concrete batch. -/
theorem c10_empty_guard_unreachable_witness :
    (["YDL0001", "YDL0002"] : List String) ≠ [] :=
  c10_empty_guard_unreachable.1 "YDL0001-YDL0002" ["YDL0001", "YDL0002"]
    (by decide)

/-- C3: the uniqueId column is present iff some identity has a non-empty
unique_id, independently the sans column iff some identity has a
non-empty sans; the header is the four fixed leading columns, the
optional columns in uniqueId-sans order, then the three fixed trailing
columns; all-empty optional fields give exactly the seven fixed columns;
and every row carries the identity's own cell values, aligned with the
header, even when a value is the empty string. -/
theorem c3_export_schema (results : List CsrResult) :
    ((write_to_csv results).1 =
        ["subject", "signHashAlg", "notBefore", "notAfter"]
          ++ (if ∃ r ∈ results, r.unique_id ≠ "" then ["uniqueId"] else [])
          ++ (if ∃ r ∈ results, r.sans ≠ "" then ["sans"] else [])
          ++ ["csr", "keyPairType", "privateKey"])
    ∧ (("uniqueId" ∈ (write_to_csv results).1) ↔ ∃ r ∈ results, r.unique_id ≠ "")
    ∧ (("sans" ∈ (write_to_csv results).1) ↔ ∃ r ∈ results, r.sans ≠ "")
    ∧ ((∀ r ∈ results, r.unique_id = "" ∧ r.sans = "") →
        (write_to_csv results).1 =
          ["subject", "signHashAlg", "notBefore", "notAfter", "csr",
            "keyPairType", "privateKey"])
    ∧ ((write_to_csv results).2 = results.map (fun r =>
        [r.subject, r.sign_hash_alg, r.not_before, r.not_after]
          ++ (if ∃ r2 ∈ results, r2.unique_id ≠ "" then [r.unique_id] else [])
          ++ (if ∃ r2 ∈ results, r2.sans ≠ "" then [r.sans] else [])
          ++ [r.csr_pem, r.key_pair_type, r.private_key_pem]))
    ∧ (∀ row ∈ (write_to_csv results).2,
        row.length = (write_to_csv results).1.length) := by
  have hstr : ∀ s : String, (s.isEmpty = false ↔ s ≠ "") := by
    intro s
    constructor
    · intro h hemp
      rw [hemp] at h
      exact absurd h (by decide)
    · intro h
      cases hb : s.isEmpty
      · rfl
      · exact absurd ((String.isEmpty_iff s).mp hb) h
  have hu : (results.any (fun r => !r.unique_id.isEmpty)) = true
      ↔ ∃ r ∈ results, r.unique_id ≠ "" := by
    simp only [List.any_eq_true, Bool.not_eq_true']
    constructor
    · rintro ⟨r, hr, h⟩
      exact ⟨r, hr, (hstr r.unique_id).mp h⟩
    · rintro ⟨r, hr, h⟩
      exact ⟨r, hr, (hstr r.unique_id).mpr h⟩
  have hs : (results.any (fun r => !r.sans.isEmpty)) = true
      ↔ ∃ r ∈ results, r.sans ≠ "" := by
    simp only [List.any_eq_true, Bool.not_eq_true']
    constructor
    · rintro ⟨r, hr, h⟩
      exact ⟨r, hr, (hstr r.sans).mp h⟩
    · rintro ⟨r, hr, h⟩
      exact ⟨r, hr, (hstr r.sans).mpr h⟩
  have hmain : (write_to_csv results).1 =
      ["subject", "signHashAlg", "notBefore", "notAfter"]
        ++ (if ∃ r ∈ results, r.unique_id ≠ "" then ["uniqueId"] else [])
        ++ (if ∃ r ∈ results, r.sans ≠ "" then ["sans"] else [])
        ++ ["csr", "keyPairType", "privateKey"]
    ∧ (write_to_csv results).2 = results.map (fun r =>
        [r.subject, r.sign_hash_alg, r.not_before, r.not_after]
          ++ (if ∃ r2 ∈ results, r2.unique_id ≠ "" then [r.unique_id] else [])
          ++ (if ∃ r2 ∈ results, r2.sans ≠ "" then [r.sans] else [])
          ++ [r.csr_pem, r.key_pair_type, r.private_key_pem]) := by
    by_cases pu : ∃ r ∈ results, r.unique_id ≠ "" <;>
      by_cases ps : ∃ r ∈ results, r.sans ≠ ""
    · have hub : results.any (fun r => !r.unique_id.isEmpty) = true := hu.mpr pu
      have hsb : results.any (fun r => !r.sans.isEmpty) = true := hs.mpr ps
      constructor <;> simp [write_to_csv, hub, hsb, pu, ps]
    · have hub : results.any (fun r => !r.unique_id.isEmpty) = true := hu.mpr pu
      have hsb : results.any (fun r => !r.sans.isEmpty) = false := by
        cases hany : results.any (fun r => !r.sans.isEmpty)
        · rfl
        · exact absurd (hs.mp hany) ps
      constructor <;> simp [write_to_csv, hub, hsb, pu, ps]
    · have hub : results.any (fun r => !r.unique_id.isEmpty) = false := by
        cases hany : results.any (fun r => !r.unique_id.isEmpty)
        · rfl
        · exact absurd (hu.mp hany) pu
      have hsb : results.any (fun r => !r.sans.isEmpty) = true := hs.mpr ps
      constructor <;> simp [write_to_csv, hub, hsb, pu, ps]
    · have hub : results.any (fun r => !r.unique_id.isEmpty) = false := by
        cases hany : results.any (fun r => !r.unique_id.isEmpty)
        · rfl
        · exact absurd (hu.mp hany) pu
      have hsb : results.any (fun r => !r.sans.isEmpty) = false := by
        cases hany : results.any (fun r => !r.sans.isEmpty)
        · rfl
        · exact absurd (hs.mp hany) ps
      constructor <;> simp [write_to_csv, hub, hsb, pu, ps]
  refine ⟨hmain.1, ?_, ?_, ?_, hmain.2, ?_⟩
  · rw [hmain.1]
    by_cases pu : ∃ r ∈ results, r.unique_id ≠ "" <;>
      by_cases ps : ∃ r ∈ results, r.sans ≠ "" <;>
      simp [pu, ps]
  · rw [hmain.1]
    by_cases pu : ∃ r ∈ results, r.unique_id ≠ "" <;>
      by_cases ps : ∃ r ∈ results, r.sans ≠ "" <;>
      simp [pu, ps]
  · intro hall
    have pu : ¬∃ r ∈ results, r.unique_id ≠ "" := by
      rintro ⟨r, hr, hne⟩
      exact hne (hall r hr).1
    have ps : ¬∃ r ∈ results, r.sans ≠ "" := by
      rintro ⟨r, hr, hne⟩
      exact hne (hall r hr).2
    rw [hmain.1]
    simp [pu, ps]
  · intro row hrow
    rw [hmain.2] at hrow
    obtain ⟨r, hr, rfl⟩ := List.mem_map.mp hrow
    rw [hmain.1]
    by_cases pu : ∃ r2 ∈ results, r2.unique_id ≠ "" <;>
      by_cases ps : ∃ r2 ∈ results, r2.sans ≠ "" <;>
      simp [pu, ps]

/-- Witness for C3: a batch whose single identity has empty unique_id and
sans exports exactly the seven fixed columns. -/
theorem c3_export_schema_witness :
    (write_to_csv [{ cn := "A1", subject := "CN=A1", sign_hash_alg := "SHA256",
                     not_before := "t0", not_after := "t1", unique_id := "",
                     sans := "", csr_pem := "C", key_pair_type := "RSA_2048",
                     private_key_pem := "K" }]).1 =
      ["subject", "signHashAlg", "notBefore", "notAfter", "csr", "keyPairType",
        "privateKey"] :=
  (c3_export_schema _).2.2.2.1 (by decide)

/-- C6: hash-token resolution is total with no error path; SHA384, SHA512
and SHA1 map to their digests and every other token, MatchIssuer and
SHA256 included, maps to SHA-256. -/
theorem c6_hash_resolution :
    resolveDigest "SHA384" = MessageDigest.sha384
    ∧ resolveDigest "SHA512" = MessageDigest.sha512
    ∧ resolveDigest "SHA1" = MessageDigest.sha1
    ∧ resolveDigest "MatchIssuer" = MessageDigest.sha256
    ∧ resolveDigest "SHA256" = MessageDigest.sha256
    ∧ (∀ s : String, s ≠ "SHA384" → s ≠ "SHA512" → s ≠ "SHA1" →
        resolveDigest s = MessageDigest.sha256) := by
  refine ⟨by decide, by decide, by decide, by decide, by decide, ?_⟩
  intro s h1 h2 h3
  unfold resolveDigest
  split <;> simp_all

/-- Witness for C6 at an arbitrary unrecognized token. -/
theorem c6_hash_resolution_witness :
    resolveDigest "SHA3-512" = MessageDigest.sha256 :=
  c6_hash_resolution.2.2.2.2.2 "SHA3-512" (by decide) (by decide) (by decide)

/-- C8: an unsupported key type makes the batch fail with an empty event
trace, before range parsing, key generation or file creation; a range
parse failure makes it fail with only the parse attempt in the trace,
before any key generation or file creation. -/
theorem c8_fail_fast :
    (∀ gen params e, KeyType.from_str params.key_type = Except.error e →
        generate_csr_batch_internal gen params = (Except.error e, []))
    ∧ (∀ gen params kt e, KeyType.from_str params.key_type = Except.ok kt →
        parse_cn_range params.cn_range = Except.error e →
        generate_csr_batch_internal gen params =
          (Except.error e, [Event.parseRange])) := by
  constructor
  · intro gen params e he
    unfold generate_csr_batch_internal
    rw [he]
  · intro gen params kt e hk he
    unfold generate_csr_batch_internal
    rw [hk, he]

/-- A successful run of the per-name loop invokes the oracle on exactly
the given names in order and produces one record per name, whose shared
fields copy the request and whose key_pair_type is the display name. -/
theorem genLoop_ok (gen : String → KeyType → String → Except String (String × String))
    (params : GenerateParams) (kt : KeyType) (hashAlg : String) :
    ∀ (cns : List String) (results : List CsrResult) (calls : List String),
      genLoop gen params kt hashAlg cns = (Except.ok results, calls) →
      calls = cns
      ∧ results.map (fun r => r.cn) = cns
      ∧ (∀ r ∈ results,
          r.subject = replaceCN params.subject_template r.cn
          ∧ r.sign_hash_alg = params.sign_hash_alg
          ∧ r.not_before = params.not_before
          ∧ r.not_after = params.not_after
          ∧ r.unique_id = params.unique_id
          ∧ r.sans = params.sans
          ∧ r.key_pair_type = kt.display_name) := by
  intro cns
  induction cns with
  | nil =>
    intro results calls h
    simp only [genLoop, Prod.mk.injEq, Except.ok.injEq] at h
    rw [← h.1, ← h.2]
    simp
  | cons cn rest ih =>
    intro results calls h
    rw [genLoop] at h
    split at h
    · simp at h
    · split at h
      · rename_i rs calls2 hrec
        simp only [Prod.mk.injEq, Except.ok.injEq] at h
        obtain ⟨hcalls2, hmapcn2, hfields2⟩ := ih rs calls2 hrec
        rw [← h.1, ← h.2]
        refine ⟨by rw [hcalls2], by simp [hmapcn2], ?_⟩
        intro r hr
        rcases List.mem_cons.mp hr with hr1 | hr2
        · rw [hr1]
          exact ⟨rfl, rfl, rfl, rfl, rfl, rfl, rfl⟩
        · exact hfields2 r hr2
      · simp at h

/-- Destructor for a successful batch: the key type resolved, the range
parsed, the loop succeeded, and the summary and the event trace have the
stated shape. -/
theorem generate_csr_batch_ok (gen : String → KeyType → String →
      Except String (String × String))
    (params : GenerateParams) (res : GenerateResult) (events : List Event)
    (h : generate_csr_batch_internal gen params = (Except.ok res, events)) :
    ∃ kt cns results calls,
      KeyType.from_str params.key_type = Except.ok kt
      ∧ parse_cn_range params.cn_range = Except.ok cns
      ∧ genLoop gen params kt (normalizedHash params) cns
          = (Except.ok results, calls)
      ∧ res = { success := true
                message := "成功生成 " ++ toString results.length ++ " 个CSR"
                total := results.length
                output_path := params.output_path }
      ∧ events = Event.parseRange ::
          calls.map (fun cn => Event.genKey cn kt (normalizedHash params))
          ++ [Event.writeCsv (write_to_csv results).1 (write_to_csv results).2] := by
  unfold generate_csr_batch_internal at h
  split at h
  · simp at h
  · rename_i kt hkt
    split at h
    · simp at h
    · rename_i cns hcns
      split at h
      · simp at h
      · dsimp only at h
        split at h
        · simp at h
        · rename_i results calls hloop
          simp only [Prod.mk.injEq, Except.ok.injEq] at h
          exact ⟨kt, cns, results, calls, hkt, hcns, hloop, h.1.symm, h.2.symm⟩

/-- Witness for C8: an invalid key-type token and a malformed range. -/
theorem c8_fail_fast_witness :
    generate_csr_batch_internal demoGen { c1Params with key_type := "INVALID" } =
      (Except.error "不支持的密钥类型: INVALID", [])
    ∧ generate_csr_batch_internal demoGen { c1Params with cn_range := "YDL0001-" } =
      (Except.error rangeErrMsg, [Event.parseRange]) :=
  ⟨c8_fail_fast.1 demoGen { c1Params with key_type := "INVALID" }
      "不支持的密钥类型: INVALID" (by decide),
    c8_fail_fast.2 demoGen { c1Params with cn_range := "YDL0001-" }
      KeyType.Rsa2048 rangeErrMsg (by decide) (by decide)⟩

/-- C1 fails on the code: with sign_hash_alg = "MatchIssuer" the signing
digest really is SHA-256 (the oracle receives the normalized token
"SHA256", which resolves to SHA-256), but the exported row's signHashAlg
cell (index 1) carries the literal request token "MatchIssuer", because
the assembled record stores params.sign_hash_alg rather than the
normalized value. -/
theorem c1_recorded_hash_is_literal_token :
    generate_csr_batch_internal demoGen c1Params =
      (Except.ok { success := true, message := "成功生成 1 个CSR", total := 1,
                   output_path := "out.csv" },
       [Event.parseRange,
        Event.genKey "YDL0001" KeyType.Rsa2048 "SHA256",
        Event.writeCsv
          ["subject", "signHashAlg", "notBefore", "notAfter", "csr",
           "keyPairType", "privateKey"]
          [["CN=YDL0001", "MatchIssuer", "2025-01-01T00:00:00Z",
            "2026-01-01T00:00:00Z", "CSR-YDL0001", "RSA_2048", "KEY-YDL0001"]]])
    ∧ resolveDigest "SHA256" = MessageDigest.sha256
    ∧ "MatchIssuer" ≠ "SHA256" := by
  refine ⟨by decide, by decide, by decide⟩

/-- C9: every successful batch reports success = true, the echoed output
path, a total equal to the number of expanded names and to the number of
exported data rows, and a message containing that count. -/
theorem c9_success_summary (gen : String → KeyType → String →
      Except String (String × String))
    (params : GenerateParams) (res : GenerateResult) (events : List Event)
    (h : generate_csr_batch_internal gen params = (Except.ok res, events)) :
    res.success = true
    ∧ res.output_path = params.output_path
    ∧ (∃ cns, parse_cn_range params.cn_range = Except.ok cns
        ∧ res.total = cns.length)
    ∧ (∃ hdr rows, Event.writeCsv hdr rows ∈ events ∧ rows.length = res.total)
    ∧ (∃ pre post, res.message = pre ++ toString res.total ++ post) := by
  obtain ⟨kt, cns, results, calls, hkt, hcns, hloop, hres, hevents⟩ :=
    generate_csr_batch_ok gen params res events h
  obtain ⟨hcalls, hmapcn, hfields⟩ :=
    genLoop_ok gen params kt (normalizedHash params) cns results calls hloop
  have hlen : results.length = cns.length := by
    rw [← hmapcn, List.length_map]
  subst hres
  subst hevents
  refine ⟨rfl, rfl, ⟨cns, hcns, hlen⟩, ?_, ⟨"成功生成 ", " 个CSR", rfl⟩⟩
  refine ⟨(write_to_csv results).1, (write_to_csv results).2, ?_, ?_⟩
  · exact List.mem_cons_of_mem _
      (List.mem_append_right _ (List.mem_singleton_self _))
  · show (write_to_csv results).2.length = results.length
    simp [write_to_csv]

/-- Witness for C9 on the concrete MatchIssuer batch. -/
theorem c9_success_summary_witness :
    (true : Bool) = true
    ∧ "out.csv" = c1Params.output_path
    ∧ (∃ cns, parse_cn_range c1Params.cn_range = Except.ok cns
        ∧ 1 = cns.length)
    ∧ (∃ hdr rows,
        Event.writeCsv hdr rows ∈
          [Event.parseRange,
           Event.genKey "YDL0001" KeyType.Rsa2048 "SHA256",
           Event.writeCsv
             ["subject", "signHashAlg", "notBefore", "notAfter", "csr",
              "keyPairType", "privateKey"]
             [["CN=YDL0001", "MatchIssuer", "2025-01-01T00:00:00Z",
               "2026-01-01T00:00:00Z", "CSR-YDL0001", "RSA_2048",
               "KEY-YDL0001"]]]
        ∧ rows.length = 1)
    ∧ (∃ pre post, "成功生成 1 个CSR" = pre ++ toString (1 : Nat) ++ post) :=
  c9_success_summary demoGen c1Params
    { success := true, message := "成功生成 1 个CSR", total := 1,
      output_path := "out.csv" }
    [Event.parseRange,
     Event.genKey "YDL0001" KeyType.Rsa2048 "SHA256",
     Event.writeCsv
       ["subject", "signHashAlg", "notBefore", "notAfter", "csr",
        "keyPairType", "privateKey"]
       [["CN=YDL0001", "MatchIssuer", "2025-01-01T00:00:00Z",
         "2026-01-01T00:00:00Z", "CSR-YDL0001", "RSA_2048", "KEY-YDL0001"]]]
    (by decide)

/-- C7: a successful batch runs the loop on exactly the expanded names in
their expansion order, producing one record per name whose subject is the
template with every placeholder occurrence replaced by that name and
whose validity window, unique_id and sans copy the request verbatim; a
template without the placeholder leaves every subject equal to the
template. -/
theorem c7_batch_records (gen : String → KeyType → String →
      Except String (String × String))
    (params : GenerateParams) (kt : KeyType) (cns : List String)
    (res : GenerateResult) (events : List Event)
    (hkt : KeyType.from_str params.key_type = Except.ok kt)
    (hcns : parse_cn_range params.cn_range = Except.ok cns)
    (h : generate_csr_batch_internal gen params = (Except.ok res, events)) :
    ∃ results calls,
      genLoop gen params kt (normalizedHash params) cns
        = (Except.ok results, calls)
      ∧ results.map (fun r => r.cn) = cns
      ∧ (∀ r ∈ results,
          r.subject = replaceCN params.subject_template r.cn
          ∧ r.not_before = params.not_before
          ∧ r.not_after = params.not_after
          ∧ r.unique_id = params.unique_id
          ∧ r.sans = params.sans)
      ∧ (hasCN params.subject_template.toList = false →
          ∀ r ∈ results, r.subject = params.subject_template) := by
  obtain ⟨kt2, cns2, results, calls, hkt2, hcns2, hloop, hres, hevents⟩ :=
    generate_csr_batch_ok gen params res events h
  rw [hkt] at hkt2
  injection hkt2 with hkteq
  subst hkteq
  rw [hcns] at hcns2
  injection hcns2 with hcnseq
  subst hcnseq
  obtain ⟨hcalls, hmapcn, hfields⟩ :=
    genLoop_ok gen params kt (normalizedHash params) cns results calls hloop
  refine ⟨results, calls, hloop, hmapcn, ?_, ?_⟩
  · intro r hr
    obtain ⟨hsub, hsha, hnb, hna, hui, hsans, hkp⟩ := hfields r hr
    exact ⟨hsub, hnb, hna, hui, hsans⟩
  · intro hno r hr
    have hrepl : replaceCN params.subject_template r.cn
        = params.subject_template := by
      unfold replaceCN
      rw [substCN_of_hasCN_false _ _ hno]
      rfl
    rw [(hfields r hr).1, hrepl]

/-- Witness for C7 on the concrete MatchIssuer batch. -/
theorem c7_batch_records_witness :
    ∃ results calls,
      genLoop demoGen c1Params KeyType.Rsa2048 (normalizedHash c1Params)
          ["YDL0001"]
        = (Except.ok results, calls)
      ∧ results.map (fun r => r.cn) = ["YDL0001"]
      ∧ (∀ r ∈ results,
          r.subject = replaceCN c1Params.subject_template r.cn
          ∧ r.not_before = c1Params.not_before
          ∧ r.not_after = c1Params.not_after
          ∧ r.unique_id = c1Params.unique_id
          ∧ r.sans = c1Params.sans)
      ∧ (hasCN c1Params.subject_template.toList = false →
          ∀ r ∈ results, r.subject = c1Params.subject_template) :=
  c7_batch_records demoGen c1Params KeyType.Rsa2048 ["YDL0001"]
    { success := true, message := "成功生成 1 个CSR", total := 1,
      output_path := "out.csv" }
    [Event.parseRange,
     Event.genKey "YDL0001" KeyType.Rsa2048 "SHA256",
     Event.writeCsv
       ["subject", "signHashAlg", "notBefore", "notAfter", "csr",
        "keyPairType", "privateKey"]
       [["CN=YDL0001", "MatchIssuer", "2025-01-01T00:00:00Z",
         "2026-01-01T00:00:00Z", "CSR-YDL0001", "RSA_2048", "KEY-YDL0001"]]]
    (by decide) (by decide) (by decide)

/-- C5: exactly the six tokens resolve, case-sensitively; every other
token (rsa_2048 and INVALID in particular) yields the unsupported-key-type
error; the display names are fixed; and in every successful batch every
exported row carries the resolved key type's display name verbatim in the
keyPairType cell (the second-to-last cell of the row). -/
theorem c5_key_type_resolution :
    (∀ s : String, (∃ k, KeyType.from_str s = Except.ok k) ↔
        (s = "RSA_2048" ∨ s = "RSA_3072" ∨ s = "RSA_4096" ∨ s = "EC_P256"
          ∨ s = "EC_P384" ∨ s = "EC_P521"))
    ∧ KeyType.from_str "rsa_2048" = Except.error "不支持的密钥类型: rsa_2048"
    ∧ KeyType.from_str "INVALID" = Except.error "不支持的密钥类型: INVALID"
    ∧ (∀ s : String, s ≠ "RSA_2048" → s ≠ "RSA_3072" → s ≠ "RSA_4096" →
        s ≠ "EC_P256" → s ≠ "EC_P384" → s ≠ "EC_P521" →
        KeyType.from_str s = Except.error ("不支持的密钥类型: " ++ s))
    ∧ KeyType.display_name KeyType.Rsa2048 = "RSA_2048"
    ∧ KeyType.display_name KeyType.Rsa3072 = "RSA_3072"
    ∧ KeyType.display_name KeyType.Rsa4096 = "RSA_4096"
    ∧ KeyType.display_name KeyType.EcP256 = "EC_P-256"
    ∧ KeyType.display_name KeyType.EcP384 = "EC_P-384"
    ∧ KeyType.display_name KeyType.EcP521 = "EC_P-521"
    ∧ (∀ gen params kt res events,
        KeyType.from_str params.key_type = Except.ok kt →
        generate_csr_batch_internal gen params = (Except.ok res, events) →
        ∀ hdr rows, Event.writeCsv hdr rows ∈ events →
        ∀ row ∈ rows, row[row.length - 2]? = some kt.display_name) := by
  have herr : ∀ s : String, s ≠ "RSA_2048" → s ≠ "RSA_3072" → s ≠ "RSA_4096" →
      s ≠ "EC_P256" → s ≠ "EC_P384" → s ≠ "EC_P521" →
      KeyType.from_str s = Except.error ("不支持的密钥类型: " ++ s) := by
    intro s h1 h2 h3 h4 h5 h6
    unfold KeyType.from_str
    split <;> simp_all
  refine ⟨?_, by decide, by decide, herr, by decide, by decide, by decide,
    by decide, by decide, by decide, ?_⟩
  · intro s
    constructor
    · rintro ⟨k, hk⟩
      by_contra hall
      push_neg at hall
      obtain ⟨h1, h2, h3, h4, h5, h6⟩ := hall
      rw [herr s h1 h2 h3 h4 h5 h6] at hk
      exact Except.noConfusion hk
    · rintro (rfl | rfl | rfl | rfl | rfl | rfl) <;> exact ⟨_, rfl⟩
  · intro gen params kt res events hkt hbatch hdr rows hmem row hrow
    obtain ⟨kt2, cns, results, calls, hkt2, hcns, hloop, hres, hevents⟩ :=
      generate_csr_batch_ok gen params res events hbatch
    rw [hkt] at hkt2
    injection hkt2 with hkteq
    subst hkteq
    obtain ⟨hcalls, hmapcn, hfields⟩ :=
      genLoop_ok gen params kt (normalizedHash params) cns results calls hloop
    subst hevents
    rcases List.mem_cons.mp hmem with h1 | h2
    · exact absurd h1 (by simp)
    · rcases List.mem_append.mp h2 with h3 | h4
      · obtain ⟨cn, _, habs⟩ := List.mem_map.mp h3
        exact absurd habs (by simp)
      · have h5 := List.mem_singleton.mp h4
        injection h5 with hh hrows
        subst hrows
        simp only [write_to_csv] at hrow
        obtain ⟨r, hrmem, hfr⟩ := List.mem_map.mp hrow
        have hkp : r.key_pair_type = kt.display_name :=
          (hfields r hrmem).2.2.2.2.2.2
        rw [← hfr, ← hkp]
        by_cases bu : (results.any (fun r2 => !r2.unique_id.isEmpty)) = true <;>
          by_cases bs : (results.any (fun r2 => !r2.sans.isEmpty)) = true <;>
          simp [bu, bs]

/-- Witness for C5: the general failure branch at token DSA_1024 and the
export cell on the concrete MatchIssuer batch. -/
theorem c5_key_type_resolution_witness :
    KeyType.from_str "DSA_1024" = Except.error ("不支持的密钥类型: " ++ "DSA_1024")
    ∧ (["CN=YDL0001", "MatchIssuer", "2025-01-01T00:00:00Z",
        "2026-01-01T00:00:00Z", "CSR-YDL0001", "RSA_2048",
        "KEY-YDL0001"] : List String)[(["CN=YDL0001", "MatchIssuer",
        "2025-01-01T00:00:00Z", "2026-01-01T00:00:00Z", "CSR-YDL0001",
        "RSA_2048", "KEY-YDL0001"] : List String).length - 2]?
        = some (KeyType.display_name KeyType.Rsa2048) :=
  ⟨c5_key_type_resolution.2.2.2.1 "DSA_1024" (by decide) (by decide) (by decide)
      (by decide) (by decide) (by decide),
    c5_key_type_resolution.2.2.2.2.2.2.2.2.2.2 demoGen c1Params KeyType.Rsa2048
      { success := true, message := "成功生成 1 个CSR", total := 1,
        output_path := "out.csv" }
      [Event.parseRange,
       Event.genKey "YDL0001" KeyType.Rsa2048 "SHA256",
       Event.writeCsv
         ["subject", "signHashAlg", "notBefore", "notAfter", "csr",
          "keyPairType", "privateKey"]
         [["CN=YDL0001", "MatchIssuer", "2025-01-01T00:00:00Z",
           "2026-01-01T00:00:00Z", "CSR-YDL0001", "RSA_2048", "KEY-YDL0001"]]]
      (by decide) (by decide)
      ["subject", "signHashAlg", "notBefore", "notAfter", "csr",
       "keyPairType", "privateKey"]
      [["CN=YDL0001", "MatchIssuer", "2025-01-01T00:00:00Z",
        "2026-01-01T00:00:00Z", "CSR-YDL0001", "RSA_2048", "KEY-YDL0001"]]
      (by decide)
      ["CN=YDL0001", "MatchIssuer", "2025-01-01T00:00:00Z",
       "2026-01-01T00:00:00Z", "CSR-YDL0001", "RSA_2048", "KEY-YDL0001"]
      (by decide)⟩

end BatchCsr
